import Mathlib

/-!
Shallow embedding of the Remote-Agent Query Orchestrator and Data
Synchronization Layer of `src/event_venue_ui_v7.py`
(class `VenueManagementSystem`).

Modelling conventions:
* A DynamoDB `table.scan()` that can raise is passed in as an
  `Except Unit (List _)` value: `.ok items` is a successful scan returning
  `items`, `.error ()` is a raised exception.  `put_item` calls that can
  raise are summarised by a `Bool` flag (`true` = all puts succeed).
* Python dicts with string keys are insertion-ordered association lists;
  `dictInsert` is `d[k] = v` (updating an existing key in place).
* `datetime` values in the revenue projection are proleptic-Gregorian
  ordinals (`Int`, day 1 = Monday), so `weekday d = (d - 1) % 7` and
  ISO-string sort order coincides with ordinal order for the well-formed
  dates the store holds.
* Bedrock stream events are the tagged variant `AgentEvent`; a trace
  event records which of the recognised keys are present plus a flag for
  any unrecognised marker (which the source never reads).
* Streamlit rendering, timestamps inside log entries, and the purely
  presentational metric fields (`uptime`, `revenue_ytd`, ...) are not part
  of any claim and are omitted; the execution log keeps the query text.
-/

namespace VenueMgmt

/-- One raw booking record as returned by scanning the agent DynamoDB
table; every field is read with `item.get(key, default)`, so each field
is optional. -/
structure BookingItem where
  booking_id : Option String
  client_name : Option String
  venue_name : Option String
  event_type : Option String
  event_date : Option String
  guest_count : Option Nat
  status : Option String
deriving Repr, DecidableEq

/-- One venue record; the tier-2 seed rows carry a `venue_id`, the tier-3
constant rows do not. -/
structure VenueItem where
  venue_id : Option String
  name : String
  capacity : Nat
  price : Nat
  utilization : Nat
deriving Repr, DecidableEq

/-- One revenue row of the `venue_management_revenue` table: the stored
ISO date (as its ordinal) and the revenue amount. -/
structure RevenueItem where
  date : Int
  revenue : Int
deriving Repr, DecidableEq

/-- The bookings projection: a Python dict keyed by the `event_date`
string, holding the composed display string. -/
abbrev BookingsDict := List (String × String)

/-- Python dict assignment `d[k] = v`: update the existing entry in
place, otherwise append at the end. -/
def dictInsert : BookingsDict → String → String → BookingsDict
  | [], k, v => [(k, v)]
  | (k', v') :: rest, k, v =>
      if k' = k then (k', v) :: rest else (k', v') :: dictInsert rest k v

/-- The display string composed from the remote fields:
`f"{venue_name} - {client_name} {event_type}"` with `item.get(_, '')`. -/
def bookingDisplay (it : BookingItem) : String :=
  it.venue_name.getD "" ++ " - " ++ it.client_name.getD "" ++ " "
    ++ it.event_type.getD ""

/-- One scan step of `load_bookings_from_db`: keep the record only when
`item.get('event_date', '')` is truthy (non-empty). -/
def bookingStep (b : BookingsDict) (it : BookingItem) : BookingsDict :=
  if it.event_date.getD "" ≠ "" then
    dictInsert b (it.event_date.getD "") (bookingDisplay it)
  else b

/-- Embeds `load_bookings_from_db`: scan the agent table and key the projection
by `event_date`; on any exception return the fixed fallback dict. -/
def load_bookings_from_db (scan : Except Unit (List BookingItem)) :
    BookingsDict :=
  match scan with
  | .ok items => items.foldl bookingStep []
  | .error _ => [("2025-03-05", "Conference Room A - ABC Corp Meeting")]

/-- The tier-2 seed venues written back by `load_venues_from_db` when the
scan comes back empty. -/
def default_seed_venues : List VenueItem :=
  [⟨some "grand_ballroom", "Grand Ballroom", 200, 2500, 85⟩,
   ⟨some "conference_a", "Conference Room A", 50, 800, 72⟩,
   ⟨some "garden_terrace", "Garden Terrace", 100, 1200, 68⟩,
   ⟨some "executive_board", "Executive Board", 20, 600, 91⟩]

/-- Embeds `get_default_venues`: the tier-3 hard-coded constant set. -/
def get_default_venues : List VenueItem :=
  [⟨none, "Grand Ballroom", 200, 2500, 85⟩,
   ⟨none, "Conference Room A", 50, 800, 72⟩,
   ⟨none, "Garden Terrace", 100, 1200, 68⟩,
   ⟨none, "Executive Board", 20, 600, 91⟩]

/-- Embeds `load_venues_from_db`: return the scanned rows when non-empty; seed
and return the defaults on an empty scan (falling to tier 3 when one of
the seeding puts raises); return `get_default_venues` on any
exception. -/
def load_venues_from_db (scan : Except Unit (List VenueItem))
    (putOk : Bool) : List VenueItem :=
  match scan with
  | .ok items =>
      if items.isEmpty then
        if putOk then default_seed_venues else get_default_venues
      else items
  | .error _ => get_default_venues

/-- Python `date.weekday()` on an ordinal day number: Monday = 0. -/
def weekday (ordinal : Int) : Int := (ordinal - 1) % 7

/-- The tier-2 synthesized revenue series written when the revenue scan
comes back empty: 30 days ending today, `2000 + i*50` plus a 500 weekend
bump. -/
def defaultRevenueSynth (today : Int) : List (Int × Int) :=
  (List.range 30).map fun (i : Nat) =>
    let date := today - (29 - (i : Int))
    (date, 2000 + (i : Int) * 50 + (if 5 ≤ weekday date then 500 else 0))

/-- The tier-3 constant revenue series: 30 days ending yesterday,
`2000 + i*50`. -/
def tier3Revenue (today : Int) : List (Int × Int) :=
  (List.range 30).map fun (i : Nat) =>
    (today - 30 + (i : Int), 2000 + (i : Int) * 50)

/-- Embeds `load_revenue_from_db`: non-empty scans are sorted ascending by date
(Python `sorted` by the ISO date key) and projected to (date, revenue)
pairs; an empty scan synthesizes and stores the default series; any
exception (including a failing put) yields the tier-3 constant series. -/
def load_revenue_from_db (scan : Except Unit (List RevenueItem))
    (putOk : Bool) (today : Int) : List (Int × Int) :=
  match scan with
  | .ok items =>
      if items.isEmpty then
        if putOk then defaultRevenueSynth today else tier3Revenue today
      else
        (items.insertionSort fun a b => a.date ≤ b.date).map
          fun it => (it.date, it.revenue)
  | .error _ => tier3Revenue today

/-- Value `c.toNat - 48` for a digit character. -/
def digitVal (c : Char) : Nat := c.toNat - 48

/-- Numeric value of a two-digit field. -/
def twoDigit (a b : Char) : Nat := digitVal a * 10 + digitVal b

/-- Numeric value of a four-digit field. -/
def fourDigit (a b c d : Char) : Nat :=
  ((digitVal a * 10 + digitVal b) * 10 + digitVal c) * 10 + digitVal d

/-- Gregorian leap-year rule, as validated by `datetime`. -/
def isLeapYear (y : Nat) : Bool :=
  y % 4 == 0 && (y % 100 != 0 || y % 400 == 0)

/-- Days in a month, as validated by `datetime`. -/
def daysInMonth (y m : Nat) : Nat :=
  if m = 2 then (if isLeapYear y then 29 else 28)
  else if m = 4 ∨ m = 6 ∨ m = 9 ∨ m = 11 then 30 else 31

/-- Python `datetime.strptime(s, '%Y-%m-%d').month` on the zero-padded ISO keys
the store holds: `some month` when the key parses as a valid calendar
date, `none` when `strptime` raises. -/
def strptimeMonth (s : String) : Option Nat :=
  match s.toList with
  | [y1, y2, y3, y4, h1, m1, m2, h2, d1, d2] =>
      if y1.isDigit && y2.isDigit && y3.isDigit && y4.isDigit
          && (h1 == '-') && m1.isDigit && m2.isDigit && (h2 == '-')
          && d1.isDigit && d2.isDigit then
        if 1 ≤ fourDigit y1 y2 y3 y4 && 1 ≤ twoDigit m1 m2
            && twoDigit m1 m2 ≤ 12 && 1 ≤ twoDigit d1 d2
            && twoDigit d1 d2 ≤ daysInMonth (fourDigit y1 y2 y3 y4)
              (twoDigit m1 m2) then
          some (twoDigit m1 m2)
        else none
      else none
  | _ => none

/-- The bookings-this-month computation
`len([d for d in bookings.keys() if strptime(d).month == now.month])`:
`some count` when every key parses, `none` when `strptime` raises on a
malformed key. -/
def bookingsMonth (keys : List String) (nowMonth : Nat) : Option Nat :=
  if keys.all fun k => (strptimeMonth k).isSome then
    some ((keys.filter fun k => strptimeMonth k == some nowMonth).length)
  else none

/-- The metric fields the core reads or writes; the remaining
`system_metrics` entries are presentation constants. -/
structure Metrics where
  venues_available : Nat
  bookings_month : Nat
deriving Repr, DecidableEq

/-- The per-session state a query runs against, after
`init_dynamic_data` has populated the caches. -/
structure RunState where
  executionLog : List String
  bookings : BookingsDict
  venues : List VenueItem
  revenue : List (Int × Int)
  metrics : Metrics
deriving Repr, DecidableEq

/-- Embeds `refresh_data_from_db`: re-scan the bookings store (the load itself
falls back on exceptions), replace the projection, then recompute
`bookings_month`; an exception in the metric recomputation (a malformed
key) is swallowed by the `except: pass`, but the projection has already
been replaced by then. -/
def refresh_data_from_db (scan : Except Unit (List BookingItem))
    (nowMonth : Nat) (st : RunState) : RunState :=
  let b := load_bookings_from_db scan
  match bookingsMonth (b.map Prod.fst) nowMonth with
  | some n =>
      { st with bookings := b
                metrics := { st.metrics with bookings_month := n } }
  | none => { st with bookings := b }

/-- A knowledge-base retrieval hit inside a
`knowledgeBaseRetrievalTrace`. -/
structure RetrievalResult where
  contentText : String
  score : Rat
  s3Uri : Option String
deriving Repr, DecidableEq

/-- Which keys a decoded `event['trace']['trace']` dict carries.
`unrecognized` stands for any marker outside the five keys the loop
tests; the loop body never reads it. -/
structure TraceData where
  preProcessing : Bool
  orchestration : Bool
  kbRetrieval : Option (List RetrievalResult)
  invocationInput : Bool
  postProcessing : Bool
  unrecognized : Bool
deriving Repr, DecidableEq

/-- One event of `response['completion']`: a text chunk (already decoded
from utf-8 bytes) or a trace event. -/
inductive AgentEvent where
  | chunk (text : String)
  | trace (t : TraceData)
deriving Repr, DecidableEq

/-- One entry of the `sources` list built from a retrieval hit. -/
structure Source where
  content : String
  score : Rat
  source : String
deriving Repr, DecidableEq

/-- Test `leadsWith n h`: the character list `n` starts the character
list `h`. -/
def leadsWith : List Char → List Char → Bool
  | [], _ => true
  | _ :: _, [] => false
  | c :: cs, d :: ds => c == d && leadsWith cs ds

/-- Test `hasSub n h`: `n` occurs contiguously inside `h`. -/
def hasSub (needle : List Char) : List Char → Bool
  | [] => leadsWith needle []
  | c :: cs => leadsWith needle (c :: cs) || hasSub needle cs

/-- Python's substring test `sub in hay`. -/
def strContains (hay sub : String) : Bool := hasSub sub.toList hay.toList

/-- Python's `s.lower()` (ASCII, which covers every keyword tested). -/
def pyLower (s : String) : String := String.mk (s.toList.map Char.toLower)

/-- Python `any(keyword in q for keyword in kws)`. -/
def matchesAny (q : String) (kws : List String) : Bool :=
  kws.any fun k => strContains q k

/-- The sources built from the retrieval hits: content hard-truncated to
200 characters plus an ellipsis, score copied verbatim, uri defaulted to
the placeholder. -/
def kbSources (rs : List RetrievalResult) : List Source :=
  rs.map fun r =>
    ⟨String.mk (r.contentText.toList.take 200) ++ "...", r.score,
     r.s3Uri.getD "Knowledge Base"⟩

/-- Accumulator of the event loop in `execute_agent_query`:
`displayScans` counts the extra store scans performed by
`display_aws_resources_for_booking` (whose message side effect is not
otherwise observed by any claim). -/
structure ConsumeAcc where
  result : String
  sources : List Source
  steps : List String
  displayScans : Nat
deriving Repr, DecidableEq

/-- The body of the trace branch of the event loop, in source order. -/
def processTrace (query : String) (t : TraceData) (acc : ConsumeAcc) :
    ConsumeAcc :=
  let a1 := if t.preProcessing then
      { acc with steps :=
          acc.steps ++ ["PRE-PROCESSING: Input validation and routing"] }
    else acc
  let a2 := if t.orchestration then
      { a1 with steps :=
          a1.steps ++ ["ORCHESTRATION: Agent workflow execution"] }
    else a1
  let a3 := match t.kbRetrieval with
    | some rs =>
        { a2 with
          steps := a2.steps ++ ["KNOWLEDGE BASE: Vector similarity search"]
          sources := a2.sources ++ kbSources rs }
    | none => a2
  let a4 := if t.invocationInput then
      let a := { a3 with steps := a3.steps ++
          ["LAMBDA: Processing booking operation",
           "DYNAMODB: Updating venue records"] }
      if matchesAny (pyLower query) ["book", "create", "reserve"] then
        { a with displayScans := a.displayScans + 1 }
      else a
    else a3
  if t.postProcessing then
    { a4 with steps :=
        a4.steps ++ ["POST-PROCESSING: Response formatting and validation"] }
  else a4

/-- One iteration of `for event in response['completion']`: a chunk
overwrites `result`; a trace event is decoded only when
`show_infrastructure` is set. -/
def consumeEvent (query : String) (showInfra : Bool) (acc : ConsumeAcc) :
    AgentEvent → ConsumeAcc
  | .chunk s => { acc with result := s }
  | .trace t => if showInfra then processTrace query t acc else acc

/-- The whole event loop, starting from the empty accumulator. -/
def consumeEvents (query : String) (showInfra : Bool)
    (events : List AgentEvent) : ConsumeAcc :=
  events.foldl (consumeEvent query showInfra) ⟨"", [], [], 0⟩

/-- What `execute_agent_query` produces: the returned triple, the
resulting session state, and how many bookings-store scans were
performed while handling the query. -/
structure QueryOutcome where
  result : String
  sources : List Source
  steps : List String
  state : RunState
  storeScans : Nat
deriving Repr, DecidableEq

/-- The refresh trigger keywords of `execute_agent_query`. -/
def booking_keywords : List String :=
  ["book", "reserve", "schedule", "create booking"]

/-- Embeds `execute_agent_query`.  Here `invokeResult` is the outcome of
`bedrock.invoke_agent`: `.error cause` when the call (or the streamed
iteration) raises, `.ok events` for a delivered stream.  The
disconnected short-circuit returns before the execution-log append. -/
def execute_agent_query (connected : Bool) (query : String)
    (showInfra : Bool) (invokeResult : Except String (List AgentEvent))
    (bookingScan : Except Unit (List BookingItem)) (nowMonth : Nat)
    (st : RunState) : QueryOutcome :=
  if !connected then
    ⟨"SYSTEM ERROR: Agent connection unavailable", [], [], st, 0⟩
  else
    let st1 := { st with executionLog := st.executionLog ++ [query] }
    match invokeResult with
    | .error e => ⟨"EXECUTION ERROR: " ++ e, [], [], st1, 0⟩
    | .ok events =>
        let acc := consumeEvents query showInfra events
        let doRefresh := matchesAny (pyLower query) booking_keywords
          && !strContains acc.result "EXECUTION ERROR"
        let st2 := if doRefresh then
            refresh_data_from_db bookingScan nowMonth st1
          else st1
        ⟨acc.result, acc.sources, acc.steps, st2,
          acc.displayScans + (if doRefresh then 1 else 0)⟩

/-- The session cache as `init_dynamic_data` sees it: `none` marks a key
absent from `st.session_state`. -/
structure SessionCache where
  venues : Option (List VenueItem)
  bookings : Option BookingsDict
  revenue : Option (List (Int × Int))
  metrics : Option Metrics
deriving Repr, DecidableEq

/-- Embeds `init_dynamic_data`: each projection is loaded only when absent from
the session cache.  When the metric computation raises on a malformed
booking key the surrounding `except` falls into `init_default_data`,
which leaves every already-populated session entry untouched. -/
def init_dynamic_data (venueScan : Except Unit (List VenueItem))
    (putOkV : Bool) (bookingScan : Except Unit (List BookingItem))
    (revenueScan : Except Unit (List RevenueItem)) (putOkR : Bool)
    (today : Int) (nowMonth : Nat) (st : SessionCache) : SessionCache :=
  let v := st.venues.getD (load_venues_from_db venueScan putOkV)
  let b := st.bookings.getD (load_bookings_from_db bookingScan)
  let r := st.revenue.getD (load_revenue_from_db revenueScan putOkR today)
  let st1 : SessionCache := ⟨some v, some b, some r, st.metrics⟩
  match st.metrics with
  | some _ => st1
  | none =>
      match bookingsMonth (b.map Prod.fst) nowMonth with
      | some n => { st1 with metrics := some ⟨v.length, n⟩ }
      | none => st1

/-! ## Helper lemmas -/

/-- With trace display off, the event loop never classifies and never
scans: steps, sources and the display-scan count stay at their initial
values. -/
theorem consume_no_infra_aux (q : String) (events : List AgentEvent) :
    ∀ acc : ConsumeAcc,
      (events.foldl (consumeEvent q false) acc).displayScans
          = acc.displayScans
      ∧ (events.foldl (consumeEvent q false) acc).steps = acc.steps
      ∧ (events.foldl (consumeEvent q false) acc).sources = acc.sources := by
  induction events with
  | nil => exact fun acc => ⟨rfl, rfl, rfl⟩
  | cons e es ih =>
      intro acc
      cases e with
      | chunk s => simpa [consumeEvent] using ih { acc with result := s }
      | trace t => simpa [consumeEvent] using ih acc

/-- Specialisation of `consume_no_infra_aux` to the initial
accumulator. -/
theorem consumeEvents_no_infra (q : String) (events : List AgentEvent) :
    (consumeEvents q false events).displayScans = 0
    ∧ (consumeEvents q false events).steps = []
    ∧ (consumeEvents q false events).sources = [] :=
  consume_no_infra_aux q events ⟨"", [], [], 0⟩

/-! ## Claim theorems -/

/-- Claim C1 (code bug): on the two-chunk stream `["Hello ", "World"]`
`execute_agent_query` returns only the last chunk `"World"`, not the
concatenation `"Hello World"` required by the spec — each chunk
assignment overwrites the previous one. -/
theorem execute_agent_query_keeps_last_chunk :
    (execute_agent_query true "hello" false
        (.ok [.chunk "Hello ", .chunk "World"]) (.ok []) 3
        ⟨[], [], [], [], ⟨4, 1⟩⟩).result = "World"
    ∧ (execute_agent_query true "hello" false
        (.ok [.chunk "Hello ", .chunk "World"]) (.ok []) 3
        ⟨[], [], [], [], ⟨4, 1⟩⟩).result ≠ "Hello World" :=
  ⟨rfl, by decide⟩

/-- Claim C2 counterexample: with no configured client the fixed error
string and the empty lists are returned, but the query is not appended
to the execution log — the short-circuit returns before the logging
step, so the log stays empty instead of gaining the query. -/
theorem execute_agent_query_disconnected_not_logged :
    (execute_agent_query false "book the Grand Ballroom" true (.ok [])
        (.error ()) 3 ⟨[], [], [], [], ⟨4, 1⟩⟩)
      = ⟨"SYSTEM ERROR: Agent connection unavailable", [], [],
         ⟨[], [], [], [], ⟨4, 1⟩⟩, 0⟩
    ∧ ([] : List String) ≠ ["book the Grand Ballroom"] :=
  ⟨rfl, by decide⟩

/-- Claim C2 (amended): a disconnected client short-circuits to the
fixed error string with empty citations and steps, leaves the whole
session state — the execution log included — unchanged, and performs no
store scan. -/
theorem execute_agent_query_disconnected (query : String)
    (showInfra : Bool) (invokeResult : Except String (List AgentEvent))
    (bookingScan : Except Unit (List BookingItem)) (nowMonth : Nat)
    (st : RunState) :
    execute_agent_query false query showInfra invokeResult bookingScan
        nowMonth st
      = ⟨"SYSTEM ERROR: Agent connection unavailable", [], [], st, 0⟩ :=
  rfl

/-- Claim C3 counterexample: starting from an empty bookings projection,
a refresh whose store scan raises does not keep the prior cache — the
projection is replaced by the fixed fallback entry, so the projection
before and after the call differ. -/
theorem refresh_failure_changes_bookings :
    (refresh_data_from_db (.error ()) 3
        ⟨[], [], [], [], ⟨4, 0⟩⟩).bookings
      = [("2025-03-05", "Conference Room A - ABC Corp Meeting")]
    ∧ (refresh_data_from_db (.error ()) 3
        ⟨[], [], [], [], ⟨4, 0⟩⟩).bookings ≠ ([] : BookingsDict) :=
  ⟨rfl, by decide⟩

/-- Claim C3 (amended): no exception ever propagates out of a refresh,
but the prior projection is not retained: the refresh always replaces
the bookings projection with whatever `load_bookings_from_db` returns,
which on a failing scan is the fixed fallback dict rather than the
previous cache. -/
theorem refresh_replaces_bookings (scan : Except Unit (List BookingItem))
    (nowMonth : Nat) (st : RunState) :
    (refresh_data_from_db scan nowMonth st).bookings
        = load_bookings_from_db scan
    ∧ (∀ e : Unit, load_bookings_from_db (.error e)
        = [("2025-03-05", "Conference Room A - ABC Corp Meeting")]) := by
  constructor
  · cases h : bookingsMonth ((load_bookings_from_db scan).map Prod.fst)
        nowMonth <;>
      simp [refresh_data_from_db, h]
  · intro e; rfl

/-- Claim C5: when the primary venues scan raises, the loader returns
exactly the hard-coded `get_default_venues` constant — the four venues
Grand Ballroom, Conference Room A, Garden Terrace, Executive Board in
that order — and, being total, never propagates the exception. -/
theorem load_venues_from_db_fallback (e : Unit) (putOk : Bool) :
    load_venues_from_db (.error e) putOk = get_default_venues
    ∧ (load_venues_from_db (.error e) putOk).map VenueItem.name
      = ["Grand Ballroom", "Conference Room A", "Garden Terrace",
         "Executive Board"] :=
  ⟨rfl, rfl⟩

/-- Claim C6 (code bug): a trace event carrying only an unrecognized
marker produces no pipeline step at all — the event loop tests the five
known keys and has no fallback branch, so the event is silently dropped
instead of being mapped to an explicit unclassified step. -/
theorem unrecognized_marker_dropped :
    (execute_agent_query true "hello" true
        (.ok [.trace ⟨false, false, none, false, false, true⟩])
        (.ok []) 3 ⟨[], [], [], [], ⟨4, 1⟩⟩).steps = [] :=
  rfl

/-- Claim C4 counterexample: the query "book it" with a non-error result
triggers two extra bookings store scans, not exactly one — when trace
display is on and an invocation trace event arrives, the keyword test
inside the event loop performs an additional diagnostic scan on top of
the refresh scan. -/
theorem booking_query_two_scans :
    (execute_agent_query true "book it" true
        (.ok [.trace ⟨false, false, none, true, false, false⟩])
        (.ok []) 3 ⟨[], [], [], [], ⟨4, 1⟩⟩).storeScans = 2
    ∧ (execute_agent_query true "book it" true
        (.ok [.trace ⟨false, false, none, true, false, false⟩])
        (.ok []) 3 ⟨[], [], [], [], ⟨4, 1⟩⟩).storeScans ≠ 1 :=
  ⟨rfl, by decide⟩

/-- Claim C4 (amended): with trace display off, a query
case-insensitively containing one of book/reserve/schedule/create
booking whose result carries no error marker triggers exactly one extra
bookings store scan — the refresh, which replaces the projection and
recomputes the bookings-this-month metric — and a query matching none of
the keywords triggers zero extra scans and leaves the state at the
logged-only state.  (With trace display on, each invocation trace event
for a query containing book/create/reserve adds one further diagnostic
scan, as the counterexample shows.) -/
theorem execute_agent_query_scan_count (q : String)
    (events : List AgentEvent) (scan : Except Unit (List BookingItem))
    (nowMonth : Nat) (st : RunState) :
    (execute_agent_query true q false (.ok events) scan nowMonth
        st).storeScans
      = (if matchesAny (pyLower q) booking_keywords
            && !strContains (consumeEvents q false events).result
              "EXECUTION ERROR" then 1 else 0)
    ∧ (execute_agent_query true q false (.ok events) scan nowMonth
        st).state
      = (if matchesAny (pyLower q) booking_keywords
            && !strContains (consumeEvents q false events).result
              "EXECUTION ERROR" then
          refresh_data_from_db scan nowMonth
            { st with executionLog := st.executionLog ++ [q] }
        else { st with executionLog := st.executionLog ++ [q] }) := by
  have h := (consumeEvents_no_infra q events).1
  constructor
  · show (consumeEvents q false events).displayScans
        + (if matchesAny (pyLower q) booking_keywords
            && !strContains (consumeEvents q false events).result
              "EXECUTION ERROR" then 1 else 0) = _
    rw [h, Nat.zero_add]
  · rfl

/-- Claim C7: a bookings refresh touches only the bookings projection
and the bookings-this-month metric — the cached venues, revenue series,
execution log and the remaining metric fields are untouched — and
`init_dynamic_data` loads venues and revenue only when the session cache
has none, keeping an already-present projection verbatim. -/
theorem refresh_frame (scan : Except Unit (List BookingItem))
    (nowMonth : Nat) (st : RunState) :
    (refresh_data_from_db scan nowMonth st).venues = st.venues
    ∧ (refresh_data_from_db scan nowMonth st).revenue = st.revenue
    ∧ (refresh_data_from_db scan nowMonth st).executionLog
        = st.executionLog
    ∧ (refresh_data_from_db scan nowMonth st).metrics.venues_available
        = st.metrics.venues_available
    ∧ (∀ (vs : Except Unit (List VenueItem)) (pV : Bool)
        (bs : Except Unit (List BookingItem))
        (rs : Except Unit (List RevenueItem)) (pR : Bool) (today : Int)
        (m : Nat) (cache : SessionCache),
        (init_dynamic_data vs pV bs rs pR today m cache).venues
          = some (cache.venues.getD (load_venues_from_db vs pV))
        ∧ (init_dynamic_data vs pV bs rs pR today m cache).revenue
          = some (cache.revenue.getD
              (load_revenue_from_db rs pR today))) := by
  refine ⟨?_, ?_, ?_, ?_, ?_⟩
  case _ =>
    cases h : bookingsMonth ((load_bookings_from_db scan).map Prod.fst)
        nowMonth <;>
      simp [refresh_data_from_db, h]
  case _ =>
    cases h : bookingsMonth ((load_bookings_from_db scan).map Prod.fst)
        nowMonth <;>
      simp [refresh_data_from_db, h]
  case _ =>
    cases h : bookingsMonth ((load_bookings_from_db scan).map Prod.fst)
        nowMonth <;>
      simp [refresh_data_from_db, h]
  case _ =>
    cases h : bookingsMonth ((load_bookings_from_db scan).map Prod.fst)
        nowMonth <;>
      simp [refresh_data_from_db, h]
  case _ =>
    intro vs pV bs rs pR today m cache
    cases hm : cache.metrics with
    | some mm => constructor <;> simp [init_dynamic_data, hm]
    | none =>
        cases hb : bookingsMonth
            ((cache.bookings.getD (load_bookings_from_db bs)).map
              Prod.fst) m <;>
          constructor <;> simp [init_dynamic_data, hm, hb]

/-- Totality of the date-key comparison used to sort revenue rows. -/
instance : IsTotal RevenueItem fun a b => a.date ≤ b.date :=
  ⟨fun a b => Int.le_total a.date b.date⟩

/-- Transitivity of the date-key comparison used to sort revenue
rows. -/
instance : IsTrans RevenueItem fun a b => a.date ≤ b.date :=
  ⟨fun _ _ _ h1 h2 => le_trans h1 h2⟩

/-- The tier-3 constant revenue series has 30 samples, strictly
ascending dates, and amounts at or above the 2000 floor. -/
theorem tier3Revenue_props (today : Int) :
    (tier3Revenue today).length = 30
    ∧ (tier3Revenue today).Pairwise (fun p q => p.1 < q.1)
    ∧ (∀ p ∈ tier3Revenue today, 2000 ≤ p.2) := by
  refine ⟨?_, ?_, ?_⟩
  · simp only [tier3Revenue, List.length_map, List.length_range]
  · unfold tier3Revenue
    rw [List.pairwise_map]
    refine (List.pairwise_lt_range 30).imp ?_
    intro i j hij
    dsimp only
    omega
  · intro p hp
    unfold tier3Revenue at hp
    rw [List.mem_map] at hp
    obtain ⟨i, hi, rfl⟩ := hp
    dsimp only
    omega

/-- The tier-2 synthesized revenue series has 30 samples, strictly
ascending dates, and amounts at or above the 2000 floor. -/
theorem defaultRevenueSynth_props (today : Int) :
    (defaultRevenueSynth today).length = 30
    ∧ (defaultRevenueSynth today).Pairwise (fun p q => p.1 < q.1)
    ∧ (∀ p ∈ defaultRevenueSynth today, 2000 ≤ p.2) := by
  refine ⟨?_, ?_, ?_⟩
  · simp only [defaultRevenueSynth, List.length_map, List.length_range]
  · unfold defaultRevenueSynth
    rw [List.pairwise_map]
    refine (List.pairwise_lt_range 30).imp ?_
    intro i j hij
    dsimp only
    omega
  · intro p hp
    unfold defaultRevenueSynth at hp
    rw [List.mem_map] at hp
    obtain ⟨i, hi, rfl⟩ := hp
    dsimp only
    split <;> omega

/-- On a non-empty scan the revenue loader returns one sample per stored
row, sorted ascending by date: a permutation of the rows'
(date, revenue) pairs. -/
theorem load_revenue_nonempty (items : List RevenueItem) (putOk : Bool)
    (today : Int) (h : items ≠ []) :
    (load_revenue_from_db (.ok items) putOk today).length = items.length
    ∧ (load_revenue_from_db (.ok items) putOk today).Pairwise
        (fun p q => p.1 ≤ q.1)
    ∧ (load_revenue_from_db (.ok items) putOk today).Perm
        (items.map fun it => (it.date, it.revenue)) := by
  have hne : items.isEmpty = false := by
    simp [List.isEmpty_iff, h]
  have hperm := List.perm_insertionSort
    (fun a b : RevenueItem => a.date ≤ b.date) items
  have hdef : load_revenue_from_db (.ok items) putOk today
      = (items.insertionSort fun a b => a.date ≤ b.date).map
          (fun it => (it.date, it.revenue)) := by
    simp [load_revenue_from_db, hne]
  refine ⟨?_, ?_, ?_⟩
  · rw [hdef, List.length_map, hperm.length_eq]
  · rw [hdef, List.pairwise_map]
    exact (List.sorted_insertionSort
      (fun a b : RevenueItem => a.date ≤ b.date) items).imp
      (fun hab => hab)
  · rw [hdef]
    exact hperm.map _

/-- Claim C8 counterexample: a store holding a single revenue row yields
a 1-sample projection, not the fixed 30-sample window the claim
asserts for every case. -/
theorem load_revenue_single_row :
    (load_revenue_from_db (.ok [⟨739000, 3000⟩]) true 739100).length = 1
    ∧ (load_revenue_from_db (.ok [⟨739000, 3000⟩]) true 739100).length
      ≠ 30 :=
  ⟨rfl, by decide⟩

/-- Claim C8 (amended): only when the store is empty or unavailable is
the projection the fixed 30-sample window — strictly ascending dates,
amounts at or above the 2000 floor; a non-empty scan instead yields one
sample per stored row (so any length the store dictates), sorted
ascending by date. -/
theorem load_revenue_projection (e : Unit) (putOk : Bool) (today : Int)
    (items : List RevenueItem) (h : items ≠ []) :
    (load_revenue_from_db (.error e) putOk today).length = 30
    ∧ (load_revenue_from_db (.error e) putOk today).Pairwise
        (fun p q => p.1 < q.1)
    ∧ (∀ p ∈ load_revenue_from_db (.error e) putOk today, 2000 ≤ p.2)
    ∧ (load_revenue_from_db (.ok []) putOk today).length = 30
    ∧ (load_revenue_from_db (.ok []) putOk today).Pairwise
        (fun p q => p.1 < q.1)
    ∧ (∀ p ∈ load_revenue_from_db (.ok []) putOk today, 2000 ≤ p.2)
    ∧ (load_revenue_from_db (.ok items) putOk today).length = items.length
    ∧ (load_revenue_from_db (.ok items) putOk today).Pairwise
        (fun p q => p.1 ≤ q.1)
    ∧ (load_revenue_from_db (.ok items) putOk today).Perm
        (items.map fun it => (it.date, it.revenue)) := by
  have h3 := tier3Revenue_props today
  have h2 := defaultRevenueSynth_props today
  have hn := load_revenue_nonempty items putOk today h
  refine ⟨h3.1, h3.2.1, h3.2.2, ?_, ?_, ?_, hn.1, hn.2.1, hn.2.2⟩
  · cases putOk
    · exact h3.1
    · exact h2.1
  · cases putOk
    · exact h3.2.1
    · exact h2.2.1
  · cases putOk
    · exact h3.2.2
    · exact h2.2.2

/-- Witness for the amended claim C8 at a concrete one-row store. -/
theorem load_revenue_projection_witness :
    (load_revenue_from_db (.ok [⟨739000, 3000⟩]) true 739100).length
      = [(⟨739000, 3000⟩ : RevenueItem)].length :=
  (load_revenue_projection () true 739100 [⟨739000, 3000⟩]
    (by decide)).2.2.2.2.2.2.1

/-- Claim C9: the bookings-this-month metric counts exactly the
projection keys whose month component equals the current month, and the
month a valid key contributes is read only from the part of the key
after the four year digits — two parseable keys agreeing from position
4 on yield the same month — so a booking dated in the same calendar
month of any year is included in the count. -/
theorem bookings_month_ignores_year (keys : List String) (m : Nat)
    (hk : ∀ k ∈ keys, (strptimeMonth k).isSome) :
    bookingsMonth keys m
      = some ((keys.filter fun k => strptimeMonth k == some m).length)
    ∧ (∀ k1 k2 mv, strptimeMonth k1 = some mv →
        (strptimeMonth k2).isSome →
        k1.toList.drop 4 = k2.toList.drop 4 →
        strptimeMonth k2 = some mv) := by
  constructor
  · have hall : (keys.all fun k => (strptimeMonth k).isSome) = true :=
      List.all_eq_true.2 fun k hkk => hk k hkk
    simp [bookingsMonth, hall]
  · intro k1 k2 mv h1 h2 hdrop
    obtain ⟨mv2, hk2⟩ := Option.isSome_iff_exists.1 h2
    have hk2' := hk2
    unfold strptimeMonth at h1 hk2'
    split at h1
    case _ ya1 ya2 ya3 ya4 ca1 ma1 ma2 ca2 da1 da2 heq1 =>
      split at hk2'
      case _ yb1 yb2 yb3 yb4 cb1 mb1 mb2 cb2 db1 db2 heq2 =>
        rw [heq1, heq2] at hdrop
        simp only [List.drop, List.cons.injEq] at hdrop
        obtain ⟨hc1, hm1, hm2, hc2, hd1, hd2, -⟩ := hdrop
        subst hc1 hm1 hm2 hc2 hd1 hd2
        split at h1
        · split at hk2'
          · split at h1
            · split at hk2'
              · simp only [Option.some.injEq] at h1 hk2'
                rw [hk2, ← h1, ← hk2']
              · exact absurd hk2' (by simp)
            · exact absurd h1 (by simp)
          · exact absurd hk2' (by simp)
        · exact absurd h1 (by simp)
      case _ => exact absurd hk2' (by simp)
    case _ => exact absurd h1 (by simp)

/-- Witness for claim C9: two March keys of different years are both
counted by the metric, and the month of a key is recovered
independently of its year digits. -/
theorem bookings_month_ignores_year_witness :
    bookingsMonth ["2020-03-05", "2025-03-05"] 3
      = some ((["2020-03-05", "2025-03-05"].filter
          fun k => strptimeMonth k == some 3).length)
    ∧ strptimeMonth "2025-03-05" = some 3 :=
  ⟨(bookings_month_ignores_year ["2020-03-05", "2025-03-05"] 3
      (by decide)).1,
   (bookings_month_ignores_year [] 3 (by simp)).2 "2020-03-05"
     "2025-03-05" 3 (by decide) (by decide) (by decide)⟩

/-- Dict assignment then lookup at the assigned key yields the assigned
value. -/
theorem lookup_dictInsert_self (b : BookingsDict) (k v : String) :
    (dictInsert b k v).lookup k = some v := by
  induction b with
  | nil => simp [dictInsert, List.lookup]
  | cons p rest ih =>
      obtain ⟨k0, v0⟩ := p
      by_cases hk : k0 = k
      · subst hk
        simp [dictInsert, List.lookup]
      · have hb : (k == k0) = false := beq_eq_false_iff_ne.2 (Ne.symm hk)
        simp [dictInsert, hk, List.lookup, hb, ih]

/-- Dict assignment leaves lookups at every other key unchanged. -/
theorem lookup_dictInsert_ne (b : BookingsDict) (k v k' : String)
    (h : k' ≠ k) : (dictInsert b k v).lookup k' = b.lookup k' := by
  induction b with
  | nil =>
      have hb : (k' == k) = false := beq_eq_false_iff_ne.2 h
      simp [dictInsert, List.lookup, hb]
  | cons p rest ih =>
      obtain ⟨k0, v0⟩ := p
      by_cases hk : k0 = k
      · subst hk
        have hb : (k' == k0) = false := beq_eq_false_iff_ne.2 h
        simp [dictInsert, List.lookup, hb]
      · by_cases h0 : k' = k0
        · subst h0
          simp [dictInsert, hk, List.lookup]
        · have hb : (k' == k0) = false := beq_eq_false_iff_ne.2 h0
          simp [dictInsert, hk, List.lookup, hb, ih]

/-- Folding the booking scan over a dict makes a lookup at a non-empty
date return the last scanned record carrying that date, falling back to
the prior dict when no record does. -/
theorem lookup_foldl_bookingStep (items : List BookingItem)
    (b : BookingsDict) (d : String) (hd : d ≠ "") :
    (items.foldl bookingStep b).lookup d
      = ((items.filter fun it =>
            it.event_date.getD "" == d).getLast?.map bookingDisplay).or
          (b.lookup d) := by
  induction items using List.reverseRecOn generalizing b with
  | nil => simp
  | append_singleton l it ih =>
      rw [List.foldl_append, List.filter_append]
      simp only [List.foldl_cons, List.foldl_nil]
      by_cases hit : (it.event_date.getD "" == d) = true
      · have hdk : it.event_date.getD "" = d := by simpa using hit
        have hstep : bookingStep (l.foldl bookingStep b) it
            = dictInsert (l.foldl bookingStep b) d (bookingDisplay it) := by
          rw [bookingStep, if_pos (by rw [hdk]; exact hd), hdk]
        rw [hstep, lookup_dictInsert_self]
        simp [List.filter, hit, List.getLast?_concat]
      · have hne : it.event_date.getD "" ≠ d := by simpa using hit
        have hlast : (l.filter fun it =>
              it.event_date.getD "" == d).getLast?
            = ((l.filter fun it => it.event_date.getD "" == d)
                ++ List.filter (fun it =>
                  it.event_date.getD "" == d) [it]).getLast? := by
          simp [List.filter, hit]
        by_cases hdk : it.event_date.getD "" = ""
        · have hstep : bookingStep (l.foldl bookingStep b) it
              = l.foldl bookingStep b := by
            rw [bookingStep, if_neg]
            simp [hdk]
          rw [hstep, ← hlast]
          exact ih b
        · have hstep : bookingStep (l.foldl bookingStep b) it
              = dictInsert (l.foldl bookingStep b)
                  (it.event_date.getD "") (bookingDisplay it) := by
            rw [bookingStep, if_pos hdk]
          rw [hstep, lookup_dictInsert_ne _ _ _ _ (Ne.symm hne), ← hlast]
          exact ih b

/-- Folding the booking scan never creates an empty-string key. -/
theorem lookup_foldl_bookingStep_empty (items : List BookingItem)
    (b : BookingsDict) :
    (items.foldl bookingStep b).lookup "" = b.lookup "" := by
  induction items generalizing b with
  | nil => rfl
  | cons it rest ih =>
      simp only [List.foldl_cons]
      rw [ih]
      by_cases hdk : it.event_date.getD "" = ""
      · rw [bookingStep, if_neg]
        simp [hdk]
      · rw [bookingStep, if_pos hdk,
          lookup_dictInsert_ne _ _ _ _ fun h => hdk h.symm]

/-- Claim C10: for every scan and every non-empty date, the bookings
projection maps the date to the display string of the last scanned
record carrying that date (last-write-wins), and records whose
`event_date` is missing or empty never enter the projection — the
empty-string key is never present. -/
theorem load_bookings_last_write_wins :
    (∀ (items : List BookingItem) (d : String), d ≠ "" →
      (load_bookings_from_db (.ok items)).lookup d
        = ((items.filter fun it =>
            it.event_date.getD "" == d).getLast?.map bookingDisplay))
    ∧ (∀ items : List BookingItem,
        (load_bookings_from_db (.ok items)).lookup "" = none) := by
  constructor
  · intro items d hd
    have h := lookup_foldl_bookingStep items [] d hd
    rw [load_bookings_from_db]
    rw [h]
    simp [List.lookup]
  · intro items
    rw [load_bookings_from_db]
    exact lookup_foldl_bookingStep_empty items []

/-- Witness for claim C10 on a concrete scan: two records share the
date 2025-03-05 and a third has no `event_date`; the projection returns
the last record for the shared date and holds nothing under the empty
key. -/
theorem load_bookings_last_write_wins_witness :
    (load_bookings_from_db (.ok
        [⟨some "b1", some "Alice", some "Grand Ballroom", some "Meeting",
          some "2025-03-05", some 10, some "confirmed"⟩,
         ⟨some "b2", some "Bob", some "Garden Terrace", some "Gala",
          some "2025-03-05", some 20, some "confirmed"⟩,
         ⟨some "b3", some "Eve", some "Conference Room A", some "Demo",
          none, some 5, some "confirmed"⟩])).lookup "2025-03-05"
      = (([⟨some "b1", some "Alice", some "Grand Ballroom", some "Meeting",
            some "2025-03-05", some 10, some "confirmed"⟩,
           ⟨some "b2", some "Bob", some "Garden Terrace", some "Gala",
            some "2025-03-05", some 20, some "confirmed"⟩,
           ⟨some "b3", some "Eve", some "Conference Room A", some "Demo",
            none, some 5, some "confirmed"⟩] :
          List BookingItem).filter fun it =>
            it.event_date.getD "" == "2025-03-05").getLast?.map
          bookingDisplay
    ∧ (load_bookings_from_db (.ok
        [⟨some "b1", some "Alice", some "Grand Ballroom", some "Meeting",
          some "2025-03-05", some 10, some "confirmed"⟩,
         ⟨some "b2", some "Bob", some "Garden Terrace", some "Gala",
          some "2025-03-05", some 20, some "confirmed"⟩,
         ⟨some "b3", some "Eve", some "Conference Room A", some "Demo",
          none, some 5, some "confirmed"⟩])).lookup "" = none :=
  ⟨load_bookings_last_write_wins.1
      [⟨some "b1", some "Alice", some "Grand Ballroom", some "Meeting",
        some "2025-03-05", some 10, some "confirmed"⟩,
       ⟨some "b2", some "Bob", some "Garden Terrace", some "Gala",
        some "2025-03-05", some 20, some "confirmed"⟩,
       ⟨some "b3", some "Eve", some "Conference Room A", some "Demo",
        none, some 5, some "confirmed"⟩] "2025-03-05" (by decide),
   load_bookings_last_write_wins.2
      [⟨some "b1", some "Alice", some "Grand Ballroom", some "Meeting",
        some "2025-03-05", some 10, some "confirmed"⟩,
       ⟨some "b2", some "Bob", some "Garden Terrace", some "Gala",
        some "2025-03-05", some 20, some "confirmed"⟩,
       ⟨some "b3", some "Eve", some "Conference Room A", some "Demo",
        none, some 5, some "confirmed"⟩]⟩

end VenueMgmt
